import Mathlib

/-!
Verification of the GCP Places vet-scraper pipeline (`src/main.py`).

The script is embedded shallowly:
* Python floats are modelled as `ℚ`; `round(x, 2)` is modelled by
  `round2` (round half to even, as Python's `round` does on exact values).
* Python dictionaries keyed by strings are association lists; dict
  assignment keeps the original insertion position of an existing key.
* Python truthiness of optional strings (`None` and `""` are falsy) is
  `pyTruthyS`.
* HTTP calls are oracles: a page fetch is a function from the page number
  to `Except String Page`, a details fetch maps an item to
  `Except String Details`.  A raised `requests` exception is the
  `.error` case.
-/

/-- Python truthiness of an optional string: `None` and `""` are falsy. -/
def pyTruthyS (s : Option String) : Bool :=
  match s with
  | none => false
  | some v => v ≠ ""

/-- `containsSub nd hay`: the character list `nd` occurs as a contiguous
substring of `hay` (Python's `nd in hay`). -/
def containsSub (nd : List Char) : List Char → Bool
  | [] => nd.isEmpty
  | c :: t => nd.isPrefixOf (c :: t) || containsSub nd t

/-- Python's substring test `needle in hay` on strings. -/
def strContains (hay needle : String) : Bool :=
  containsSub needle.data hay.data

/-- Python's `str.lower()` (ASCII case folding, which covers every
string the script compares). -/
def pyLower (s : String) : String :=
  String.mk (s.data.map Char.toLower)

/-- Round a rational to the nearest integer, ties to even — the behaviour
of Python's `round` on exact values. -/
def roundHalfEven (x : ℚ) : ℤ :=
  let f := ⌊x⌋
  let frac := x - (f : ℚ)
  if frac < 1 / 2 then f
  else if 1 / 2 < frac then f + 1
  else if f % 2 = 0 then f else f + 1

/-- Python's `round(x, 2)`. -/
def round2 (x : ℚ) : ℚ :=
  (roundHalfEven (x * 100) : ℚ) / 100

/-- `max(0.0, min(100.0, score))` from `score_place`. -/
def clamp0_100 (x : ℚ) : ℚ :=
  max 0 (min 100 x)

/-- Python dict lookup with default: `d.get(k, dflt)`. -/
def pyDictGet {α : Type} (m : List (String × α)) (k : String) (dflt : α) : α :=
  match m.find? (fun e => e.1 = k) with
  | some e => e.2
  | none => dflt

/-- Python dict assignment `d[k] = v`: overwrite in place when the key
exists (keeping its insertion position), else append. -/
def pyDictSet {α : Type} (m : List (String × α)) (k : String) (v : α) : List (String × α) :=
  if m.any (fun e => e.1 = k) then
    m.map (fun e => if e.1 = k then (k, v) else e)
  else
    m ++ [(k, v)]

/-- Python `a or b` on optional strings (returns `b` itself when `a` is
falsy, even if `b` is falsy too). -/
def pyOrOpt (a b : Option String) : Option String :=
  if pyTruthyS a then a else b

/-- A raw Nearby Search result item (the fields the script reads). -/
structure Item where
  place_id : Option String
  name : Option String
  vicinity : Option String
deriving DecidableEq

/-- One sampled review inside a details record. -/
structure Review where
  rating : Option ℚ
deriving DecidableEq

/-- One entry of `address_components`. -/
structure AddressComponent where
  long_name : Option String
  short_name : Option String
  types : List String
deriving DecidableEq

/-- The `geometry.location` object. -/
structure LocationLL where
  lat : Option ℚ
  lng : Option ℚ
deriving DecidableEq

/-- The `geometry` object. -/
structure Geometry where
  location : Option LocationLL
deriving DecidableEq

/-- The `plus_code` object. -/
structure PlusCode where
  global_code : Option String
  compound_code : Option String
deriving DecidableEq

/-- The `opening_hours` object. -/
structure OpeningHours where
  weekday_text : Option (List String)
deriving DecidableEq

/-- The `result` object of a Place Details response (the fields the
script reads; a missing key is `none` / the empty list). -/
structure PlaceResult where
  place_id : Option String
  name : Option String
  formatted_address : Option String
  website : Option String
  formatted_phone_number : Option String
  types : List String
  rating : Option ℚ
  user_ratings_total : Option ℕ
  reviews : List Review
  opening_hours : Option OpeningHours
  plus_code : Option PlusCode
  address_components : List AddressComponent
  geometry : Option Geometry
  url : Option String
  canonical_url : Option String
deriving DecidableEq

/-- A details record as the pipeline sees it: either a real Place
Details response (`result` present) or the degraded placeholder
`{"error": ..., "raw": item}` built on a failed fetch. -/
structure Details where
  result : Option PlaceResult
  error : Option String
  raw : Option Item
deriving DecidableEq

/-- The empty `result` dict used as default by `details.get("result", {})`. -/
def emptyResult : PlaceResult :=
  { place_id := none
    name := none
    formatted_address := none
    website := none
    formatted_phone_number := none
    types := []
    rating := none
    user_ratings_total := none
    reviews := []
    opening_hours := none
    plus_code := none
    address_components := []
    geometry := none
    url := none
    canonical_url := none }

/-- `details.get("result", {})`. -/
def resultOf (d : Details) : PlaceResult :=
  d.result.getD emptyResult

/-- The degraded placeholder `{"error": str(e), "raw": item}` substituted
when a details fetch fails (main loop, lines 371-376). -/
def placeholderDetails (e : String) (item : Item) : Details :=
  { result := none, error := some e, raw := some item }

/-- `TIER1_TYPES` (a Python set; modelled as a list, membership-only). -/
def TIER1_TYPES : List String :=
  ["veterinary_care", "veterinarian", "veterinary_pharmacy",
   "animal_hospital", "emergency_veterinarian_service"]

/-- `TIER2_TYPES`, listed in sorted order so that filtering it yields the
same list as Python's `sorted(TIER2_TYPES & types)`. -/
def TIER2_TYPES : List String :=
  ["animal_shelter", "pet_boarding_service", "pet_care_service",
   "pet_groomer", "pet_store", "pet_trainer"]

/-- `TIER3_TYPES`. -/
def TIER3_TYPES : List String :=
  ["farm", "animal_husbandry"]

/-- `KEYWORD_STRONG`, in source order. -/
def KEYWORD_STRONG : List String :=
  ["vet", "veterinary", "veterinarian", "animal", "pet", "clinic",
   "animal hospital", "spay", "neuter", "canine", "feline"]

/-- `booking_tokens` from `score_place`. -/
def booking_tokens : List String :=
  ["book", "appointment", "schedule", "online-booking", "reserve",
   "booking", "calendly", "setmore", "patient portal", "portal",
   "appointments"]

/-- `text_has_keyword`: false on falsy text, else case-insensitive
substring search for any strong keyword. -/
def text_has_keyword (text : String) : Bool :=
  if text = "" then false
  else KEYWORD_STRONG.any (fun kw => strContains (pyLower text) kw)

/-- The analysis dict returned by `classify_place` (`matched_types` is
`none` when the key is absent, as in the pure text-match case). -/
structure Classification where
  tier : ℕ
  label : String
  matchBasis : String
  matched_types : Option (List String)
deriving DecidableEq

/-- `classify_place` (lines 201-254). -/
def classify_place (details : Details) : Option Classification :=
  let res := resultOf details
  let types := res.types
  let name := res.name.getD ""
  let address := res.formatted_address.getD ""
  let website := res.website.getD ""
  let kw := text_has_keyword name || text_has_keyword address || text_has_keyword website
  let matched_t1 := TIER1_TYPES.filter (fun t => types.contains t)
  let matched_t2 := TIER2_TYPES.filter (fun t => types.contains t)
  let matched_t3 := TIER3_TYPES.filter (fun t => types.contains t)
  if !matched_t1.isEmpty then
    some { tier := 1, label := "highly likely vet clinic/hospital with BMS",
           matchBasis := "type", matched_types := some matched_t1 }
  else if !matched_t2.isEmpty && kw then
    some { tier := 2, label := "probable",
           matchBasis := "type+keyword", matched_types := some matched_t2 }
  else if !matched_t3.isEmpty && kw then
    some { tier := 3, label := "possible (wider sweep)",
           matchBasis := "type+keyword", matched_types := some matched_t3 }
  else if kw then
    some { tier := 2, label := "probable (text-match)",
           matchBasis := "keyword", matched_types := none }
  else
    none

/-- The `{score, reasons}` dict returned by `score_place`. -/
structure ScoreResult where
  score : ℚ
  reasons : List (String × ℚ)
deriving DecidableEq

/-- The type-signal block of `score_place` (lines 278-287): +60 for
`veterinary_care`, else +20 when any Tier-2 type is present. -/
def typeSignal (types : List String) : List (String × ℚ) × ℚ :=
  if types.contains "veterinary_care" then
    (pyDictSet [] "type:veterinary_care" 60, 0 + 60)
  else
    let inter := TIER2_TYPES.filter (fun t => types.contains t)
    if !inter.isEmpty then
      (pyDictSet [] ("type:" ++ String.intercalate "," inter) 20, 0 + 20)
    else
      ([], 0)

/-- One field check of the keyword loop of `score_place`: when the
keyword occurs in the field, accumulate `pts` under the labelled reason
(`reasons.get(label, 0) + pts`) and add `pts` to the score. -/
def kwField (labelPre : String) (pts : ℚ) (field kw : String) (acc : List (String × ℚ) × ℚ) :
    List (String × ℚ) × ℚ :=
  if strContains field kw then
    (pyDictSet acc.1 (labelPre ++ kw) (pyDictGet acc.1 (labelPre ++ kw) 0 + pts), acc.2 + pts)
  else acc

/-- One iteration of the keyword loop of `score_place` (lines 290-303):
+6 per keyword in the name, +3 in the address, +8 in the website URL. -/
def kwStep (name address website : String) (acc : List (String × ℚ) × ℚ) (kw : String) :
    List (String × ℚ) × ℚ :=
  kwField "website_contains:" 8 website kw
    (kwField "address_contains:" 3 address kw
      (kwField "name_contains:" 6 name kw acc))

/-- The booking-token block of `score_place` (lines 306-311): +15 once
for the first booking token found in the website URL. -/
def bookingSignal (website : String) (acc : List (String × ℚ) × ℚ) :
    List (String × ℚ) × ℚ :=
  match booking_tokens.find? (fun bt => strContains website bt) with
  | some bt => (pyDictSet acc.1 ("website_book_token:" ++ bt) 15, acc.2 + 15)
  | none => acc

/-- The phone block of `score_place` (lines 314-316): +5 flat. -/
def phoneSignal (phone : Bool) (acc : List (String × ℚ) × ℚ) :
    List (String × ℚ) × ℚ :=
  if phone then (pyDictSet acc.1 "has_phone" 5, acc.2 + 5) else acc

/-- The ratings block of `score_place` (lines 319-323): a boost of
`min(5, urt/1000*5)`; the reasons entry records the boost rounded to two
decimals while the raw boost is added to the score. -/
def ratingsSignal (urt : ℕ) (acc : List (String × ℚ) × ℚ) :
    List (String × ℚ) × ℚ :=
  if 0 < urt then
    let boost : ℚ := min 5 ((urt : ℚ) / 1000 * 5)
    (pyDictSet acc.1 "user_ratings_total" (round2 boost), acc.2 + boost)
  else acc

/-- `score_place` (lines 257-327). -/
def score_place (details : Details) : ScoreResult :=
  let res := resultOf details
  let types := res.types
  let name := pyLower (res.name.getD "")
  let address := pyLower (res.formatted_address.getD "")
  let website := pyLower (res.website.getD "")
  let phone := pyTruthyS res.formatted_phone_number
  let urt : ℕ := res.user_ratings_total.getD 0
  let acc :=
    ratingsSignal urt
      (phoneSignal phone
        (bookingSignal website
          (KEYWORD_STRONG.foldl (kwStep name address website) (typeSignal types))))
  { score := round2 (clamp0_100 acc.2), reasons := acc.1 }

/-- A page of a Nearby Search response: the `results` array and the
optional `next_page_token`. -/
structure Page where
  results : List Item
  next_page_token : Option String
deriving DecidableEq

/-- The per-item body of the aggregation loop in `nearby_search`
(lines 94-100): skip items with a falsy `place_id`, keep the first-seen
item per id (Python dicts append new keys in insertion order). -/
def insertItem (m : List (String × Item)) (item : Item) : List (String × Item) :=
  match item.place_id with
  | none => m
  | some pid =>
    if pid = "" then m
    else if m.any (fun e => e.1 = pid) then m
    else m ++ [(pid, item)]

/-- Process one page's `results` array into the accumulated mapping. -/
def processPage (m : List (String × Item)) (results : List Item) : List (String × Item) :=
  results.foldl insertItem m

/-- The pagination loop of `nearby_search` for one query (lines 88-111):
a page fetch is an oracle from the page number; a raised HTTP error is
`.error`; pagination continues only on a truthy `next_page_token` and is
capped at 3 pages. -/
def runQuery (fetch : ℕ → Except String Page) (m : List (String × Item)) :
    Except String (List (String × Item)) :=
  match fetch 1 with
  | .error e => .error e
  | .ok p1 =>
    let m1 := processPage m p1.results
    if pyTruthyS p1.next_page_token then
      match fetch 2 with
      | .error e => .error e
      | .ok p2 =>
        let m2 := processPage m1 p2.results
        if pyTruthyS p2.next_page_token then
          match fetch 3 with
          | .error e => .error e
          | .ok p3 => .ok (processPage m2 p3.results)
        else .ok m2
    else .ok m1

/-- The outer query loop of `nearby_search` (line 77): queries run in
order over the shared mapping; there is no per-query exception handling,
so the first error aborts the whole function. -/
def runQueries : List (ℕ → Except String Page) → List (String × Item) →
    Except String (List (String × Item))
  | [], m => .ok m
  | f :: fs, m =>
    match runQuery f m with
    | .error e => .error e
    | .ok m1 => runQueries fs m1

/-- `nearby_search` (lines 66-113): run all queries, then return
`list(results_by_id.values())` in insertion order. -/
def nearby_search (fetches : List (ℕ → Except String Page)) : Except String (List Item) :=
  match runQueries fetches [] with
  | .error e => .error e
  | .ok m => .ok (m.map Prod.snd)

/-- The pages the pagination loop actually processes for one query,
mirroring the traversal of `runQuery` (used to state what the visited
item stream is; on an error the traversal stops). -/
def visitedPagesQ (fetch : ℕ → Except String Page) : List (List Item) :=
  match fetch 1 with
  | .error _ => []
  | .ok p1 =>
    if pyTruthyS p1.next_page_token then
      match fetch 2 with
      | .error _ => [p1.results]
      | .ok p2 =>
        if pyTruthyS p2.next_page_token then
          match fetch 3 with
          | .error _ => [p1.results, p2.results]
          | .ok p3 => [p1.results, p2.results, p3.results]
        else [p1.results, p2.results]
    else [p1.results]

/-- All raw items visited by `nearby_search`, in query-then-page order. -/
def visitedItems (fetches : List (ℕ → Except String Page)) : List Item :=
  ((fetches.map (fun f => (visitedPagesQ f).flatten)).flatten)

/-- An item with a truthy `place_id` (the ones aggregation keeps). -/
def validItem (it : Item) : Bool :=
  pyTruthyS it.place_id

/-- Spec-side model: deduplicate a stream of raw candidate records by
`place_id`, keeping the first-seen record and preserving first-seen
order (no field merging). -/
def firstSeenDedup : List Item → List Item
  | [] => []
  | x :: xs => x :: firstSeenDedup (xs.filter (fun y => y.place_id ≠ x.place_id))
termination_by l => l.length
decreasing_by
  simp only [List.length_cons]
  exact Nat.lt_succ_of_le (List.length_filter_le _ _)

/-- Helper for relating the aggregation fold to `firstSeenDedup`: the
entries appended for a stream given the set of already-present keys. -/
def restAgg : List Item → List String → List (String × Item)
  | [], _ => []
  | it :: l, seen =>
    match it.place_id with
    | none => restAgg l seen
    | some pid =>
      if pid = "" then restAgg l seen
      else if pid ∈ seen then restAgg l seen
      else (pid, it) :: restAgg l (pid :: seen)

/-- The `candidate_summary` dict built for each kept place (lines 423-432). -/
structure CandidateSummary where
  place_id : Option String
  name : Option String
  formatted_address : Option String
  types : List String
  website : Option String
  formatted_phone_number : Option String
  rating : Option ℚ
  user_ratings_total : Option ℕ
deriving DecidableEq

/-- The enriched per-candidate object appended to `detailed_places`
(lines 413-435). -/
structure DetailsOut where
  details : Details
  analysis : Option Classification
  heuristic_score : ℚ
  final_score : ℚ
  score_reasons : List (String × ℚ)
  candidate_summary : CandidateSummary
deriving DecidableEq

/-- The details record the loop works with: the fetched record, or the
degraded placeholder when the fetch raised (lines 371-376). -/
def effectiveDetails (fetched : Except String Details) (item : Item) : Details :=
  match fetched with
  | .ok d => d
  | .error e => placeholderDetails e item

/-- Attach analysis and scoring to the details object (lines 410-433). -/
def mkOut (details : Details) (score_info : ScoreResult) (heuristic final : ℚ) : DetailsOut :=
  let res := resultOf details
  { details := details
    analysis := classify_place details
    heuristic_score := heuristic
    final_score := final
    score_reasons := score_info.reasons
    candidate_summary :=
      { place_id := res.place_id
        name := res.name
        formatted_address := res.formatted_address
        types := res.types
        website := res.website
        formatted_phone_number := res.formatted_phone_number
        rating := res.rating
        user_ratings_total := res.user_ratings_total } }

/-- The per-candidate body of the main loop (lines 367-435): require a
truthy website, score, apply the strong/weak/borderline branches, then
the final `> 20` gate. -/
def processCandidate (fetched : Except String Details) (item : Item) : Option DetailsOut :=
  let details := effectiveDetails fetched item
  let res_quick := resultOf details
  let website := res_quick.website
  if pyTruthyS website then
    let score_info := score_place details
    let heuristic_score := score_info.score
    let final_score := heuristic_score
    if heuristic_score > 30 then
      if final_score ≤ 20 then none
      else some (mkOut details score_info heuristic_score final_score)
    else if heuristic_score < 10 then none
    else if final_score ≤ 20 then none
    else some (mkOut details score_info heuristic_score final_score)
  else none

/-- The whole detail-fetch-and-filter loop over the raw candidates. -/
def processAll (fetch : Item → Except String Details) (raws : List Item) : List DetailsOut :=
  raws.filterMap (fun it => processCandidate (fetch it) it)

/-- A JSON-able value of the flat output record: a string, a number, or
Python's `None` (JSON `null`). -/
inductive PyVal where
  | s (v : String)
  | num (v : ℚ)
  | null
deriving DecidableEq

/-- `extract_component` (lines 481-488): `""` when there is no matching
component, else the matched component's long/short name (which is `None`
when that key is missing). -/
def extract_component (ac_list : List AddressComponent) (ac_type : String) (short : Bool) :
    Option String :=
  if ac_list.isEmpty then some ""
  else
    match ac_list.find? (fun ac => ac.types.contains ac_type) with
    | some ac => if short then ac.short_name else ac.long_name
    | none => some ""

/-- The query portion of a URL: after the first `?`, fragment stripped
first (`urlparse`). -/
def urlQueryPart (u : String) : String :=
  let beforeFrag :=
    match u.splitOn "#" with
    | [] => u
    | h :: _ => h
  match beforeFrag.splitOn "?" with
  | [] => ""
  | [_] => ""
  | _ :: t => String.intercalate "?" t

/-- `parse_qs` pair splitting with default options: pairs split on `&`,
key/value at the first `=`; pairs without `=` or with a blank value are
skipped.  (Percent/plus decoding of `urllib` is not modelled; no claim
depends on the decoded content of a value.) -/
def parseQSPairs (q : String) : List (String × String) :=
  (q.splitOn "&").filterMap (fun p =>
    match p.splitOn "=" with
    | [] => none
    | [_] => none
    | k :: vs =>
      let v := String.intercalate "=" vs
      if v = "" then none else some (k, v))

/-- The CID extraction from a maps URL (lines 514-523). -/
def parseCid (maps_url : String) : String :=
  let vals := ((parseQSPairs (urlQueryPart maps_url)).filter (fun e => e.1 = "cid")).map
    (fun e => e.2)
  match vals with
  | [] => ""
  | v :: _ => v

/-- Clamp a rounded review rating into the star buckets 1..5 (lines 546-549). -/
def clampStar (i : ℤ) : ℕ :=
  if i < 1 then 1 else if i > 5 then 5 else i.toNat

/-- The star-bucket tally (lines 539-550): each sampled review's rating
is rounded to the nearest integer and clamped to [1,5]; reviews without
a numeric rating are skipped. -/
def starCounts (reviews : List Review) (b : ℕ) : ℕ :=
  ((reviews.filterMap (fun rv => rv.rating.map (fun q => clampStar (roundHalfEven q)))).count b)

/-- `line.split(":", 1)`: day before the first colon, times after it. -/
def splitFirstColon (line : String) : String × String :=
  match line.splitOn ":" with
  | [] => (line, "")
  | d :: rest => (d, String.intercalate ":" rest)

/-- The seeded weekday-hours dict (line 556). -/
def baseHours : List (String × String) :=
  [("Monday", ""), ("Tuesday", ""), ("Wednesday", ""), ("Thursday", ""),
   ("Friday", ""), ("Saturday", ""), ("Sunday", "")]

/-- One iteration of the weekday-text loop (lines 557-566): lines with
no colon are skipped; otherwise the stripped day keys the stripped rest. -/
def applyHoursLine (m : List (String × String)) (line : String) : List (String × String) :=
  if strContains line ":" then
    let dt := splitFirstColon line
    pyDictSet m dt.1.trim dt.2.trim
  else m

/-- The filled weekday-hours dict for one details result. -/
def hoursMapOf (res : PlaceResult) : List (String × String) :=
  let weekday_text :=
    match res.opening_hours with
    | none => []
    | some oh => oh.weekday_text.getD []
  weekday_text.foldl applyHoursLine baseHours

/-- Render an optional string as a flat-record value (`None` → null). -/
def optSToVal (o : Option String) : PyVal :=
  match o with
  | none => PyVal.null
  | some v => PyVal.s v

/-- Render an optional number as a flat-record value (`None` → null). -/
def optQToVal (o : Option ℚ) : PyVal :=
  match o with
  | none => PyVal.null
  | some v => PyVal.num v

/-- The flat projected record for one surviving place (lines 490-596),
in the field order of the source's dict literal. -/
def simplifiedRecord (d : Details) : List (String × PyVal) :=
  let res := resultOf d
  let name := res.name.getD ""
  let address := res.formatted_address.getD ""
  let types := res.types
  let primary_category := match types with | [] => "" | t :: _ => t
  let phone := res.formatted_phone_number.getD ""
  let ac := res.address_components
  let zip_code := extract_component ac "postal_code" false
  let city := pyOrOpt (extract_component ac "locality" false)
    (pyOrOpt (extract_component ac "postal_town" false)
      (extract_component ac "administrative_area_level_2" false))
  let state := extract_component ac "administrative_area_level_1" false
  let state_code := extract_component ac "administrative_area_level_1" true
  let plus_code := (pyOrOpt (res.plus_code.bind (fun p => p.global_code))
    (pyOrOpt (res.plus_code.bind (fun p => p.compound_code)) (some ""))).getD ""
  let website := res.website.getD ""
  let maps_url := (pyOrOpt res.url (pyOrOpt res.canonical_url (some ""))).getD ""
  let cid := if maps_url = "" then "" else parseCid maps_url
  let loc := res.geometry.bind (fun g => g.location)
  let lat_val := loc.bind (fun l => l.lat)
  let lng_val := loc.bind (fun l => l.lng)
  let total_reviews := res.user_ratings_total.getD 0
  let avg_rating := res.rating.getD 0
  let hm := hoursMapOf res
  [("business_name", PyVal.s name),
   ("address", PyVal.s address),
   ("primary_category", PyVal.s primary_category),
   ("phone", PyVal.s phone),
   ("zip_code", optSToVal zip_code),
   ("city", optSToVal city),
   ("state", optSToVal state),
   ("state_code", optSToVal state_code),
   ("plus_code", PyVal.s plus_code),
   ("website", PyVal.s website),
   ("cid", PyVal.s cid),
   ("latitude", optQToVal lat_val),
   ("longitude", optQToVal lng_val),
   ("total_reviews", PyVal.num total_reviews),
   ("average_rating", PyVal.num avg_rating),
   ("1_star_reviews", PyVal.num (starCounts res.reviews 1)),
   ("2_star_reviews", PyVal.num (starCounts res.reviews 2)),
   ("3_star_reviews", PyVal.num (starCounts res.reviews 3)),
   ("4_star_reviews", PyVal.num (starCounts res.reviews 4)),
   ("5_star_reviews", PyVal.num (starCounts res.reviews 5)),
   ("monday_hours", PyVal.s (pyDictGet hm "Monday" "")),
   ("tuesday_hours", PyVal.s (pyDictGet hm "Tuesday" "")),
   ("wednesday_hours", PyVal.s (pyDictGet hm "Wednesday" "")),
   ("thursday_hours", PyVal.s (pyDictGet hm "Thursday" "")),
   ("friday_hours", PyVal.s (pyDictGet hm "Friday" "")),
   ("saturday_hours", PyVal.s (pyDictGet hm "Saturday" "")),
   ("sunday_hours", PyVal.s (pyDictGet hm "Sunday" ""))]

/-- How the run's tail reports its outcome (distinct constructors model
the distinct messages printed by `main`). -/
inductive WriteReport where
  | wroteBothFiles
  | csvFailed (e : String)
  | unexpectedError (e : String)
deriving DecidableEq

/-- The observable outcome of the output-writing phase. -/
structure WriteOutcome where
  json_written : Bool
  exit_code : ℕ
  report : WriteReport
deriving DecidableEq

/-- The output-writing tail of `main` (lines 599-657): the JSON write is
inside the outer try only, so its failure reaches the generic handler
(exit 4) with the JSON not produced; the CSV write has its own
try/except, so its failure is reported and the run still returns 0. -/
def writeOutputs (jsonWrite csvWrite : Except String Unit) : WriteOutcome :=
  match jsonWrite with
  | .error e => { json_written := false, exit_code := 4, report := .unexpectedError e }
  | .ok _ =>
    match csvWrite with
    | .error e => { json_written := true, exit_code := 0, report := .csvFailed e }
    | .ok _ => { json_written := true, exit_code := 0, report := .wroteBothFiles }

/-! ### Rounding and clamping lemmas -/

theorem roundHalfEven_ge {N : ℤ} {x : ℚ} (h : (N : ℚ) ≤ x) : N ≤ roundHalfEven x := by
  have hf : N ≤ ⌊x⌋ := Int.le_floor.mpr h
  simp only [roundHalfEven]
  split_ifs <;> omega

theorem roundHalfEven_le {N : ℤ} {x : ℚ} (h : x ≤ (N : ℚ)) : roundHalfEven x ≤ N := by
  have hfl : ⌊x⌋ ≤ N := by
    have := Int.floor_le_floor h
    rwa [Int.floor_intCast] at this
  have hfx : (⌊x⌋ : ℚ) ≤ x := Int.floor_le x
  simp only [roundHalfEven]
  split_ifs with h1 h2 h3
  · exact hfl
  all_goals {
    have hxhalf : (⌊x⌋ : ℚ) + 1 / 2 ≤ x := by
      have := not_lt.mp h1
      linarith
    have hlt : ⌊x⌋ < N := by
      by_contra hcon
      push_neg at hcon
      have : (N : ℚ) ≤ (⌊x⌋ : ℚ) := by exact_mod_cast hcon
      linarith
    omega
  }

theorem intCast_le_round2 {N : ℤ} {x : ℚ} (h : (N : ℚ) ≤ x) : (N : ℚ) ≤ round2 x := by
  have h1 : 100 * N ≤ roundHalfEven (x * 100) := by
    apply roundHalfEven_ge
    push_cast
    linarith
  unfold round2
  rw [le_div_iff₀ (by norm_num : (0 : ℚ) < 100)]
  have : ((100 * N : ℤ) : ℚ) ≤ (roundHalfEven (x * 100) : ℚ) := by exact_mod_cast h1
  push_cast at this
  linarith

theorem round2_le_intCast {N : ℤ} {x : ℚ} (h : x ≤ (N : ℚ)) : round2 x ≤ (N : ℚ) := by
  have h1 : roundHalfEven (x * 100) ≤ 100 * N := by
    apply roundHalfEven_le
    push_cast
    linarith
  unfold round2
  rw [div_le_iff₀ (by norm_num : (0 : ℚ) < 100)]
  have : (roundHalfEven (x * 100) : ℚ) ≤ ((100 * N : ℤ) : ℚ) := by exact_mod_cast h1
  push_cast at this
  linarith

theorem clamp0_100_nonneg (x : ℚ) : 0 ≤ clamp0_100 x :=
  le_max_left 0 _

theorem clamp0_100_le_100 (x : ℚ) : clamp0_100 x ≤ 100 :=
  max_le (by norm_num) (min_le_left 100 x)

theorem le_clamp0_100 {c x : ℚ} (hc : c ≤ 100) (h : c ≤ x) : c ≤ clamp0_100 x :=
  le_trans (le_min hc h) (le_max_right 0 _)

theorem clamp0_100_eq_self {x : ℚ} (h0 : 0 ≤ x) (h1 : x ≤ 100) : clamp0_100 x = x := by
  unfold clamp0_100
  rw [min_eq_right h1, max_eq_right h0]

/-! ### Monotonicity of the additive score stages -/

theorem kwField_score_le (labelPre : String) {pts : ℚ} (hp : 0 ≤ pts) (field kw : String)
    (acc : List (String × ℚ) × ℚ) : acc.2 ≤ (kwField labelPre pts field kw acc).2 := by
  unfold kwField
  split_ifs with h
  · simp only
    linarith
  · exact le_refl _

theorem kwStep_score_le (name address website : String) (acc : List (String × ℚ) × ℚ)
    (kw : String) : acc.2 ≤ (kwStep name address website acc kw).2 := by
  unfold kwStep
  calc acc.2 ≤ (kwField "name_contains:" 6 name kw acc).2 :=
        kwField_score_le _ (by norm_num) _ _ _
    _ ≤ (kwField "address_contains:" 3 address kw (kwField "name_contains:" 6 name kw acc)).2 :=
        kwField_score_le _ (by norm_num) _ _ _
    _ ≤ _ := kwField_score_le _ (by norm_num) _ _ _

theorem kwFold_score_le (name address website : String) :
    ∀ (kws : List String) (acc : List (String × ℚ) × ℚ),
      acc.2 ≤ (kws.foldl (kwStep name address website) acc).2 := by
  intro kws
  induction kws with
  | nil => intro acc; simp
  | cons kw rest ih =>
    intro acc
    calc acc.2 ≤ (kwStep name address website acc kw).2 := kwStep_score_le _ _ _ _ _
      _ ≤ _ := by simpa using ih (kwStep name address website acc kw)

theorem bookingSignal_score_le (website : String) (acc : List (String × ℚ) × ℚ) :
    acc.2 ≤ (bookingSignal website acc).2 := by
  unfold bookingSignal
  cases booking_tokens.find? (fun bt => strContains website bt) with
  | none => exact le_refl _
  | some bt =>
    simp only
    linarith

theorem phoneSignal_score_le (phone : Bool) (acc : List (String × ℚ) × ℚ) :
    acc.2 ≤ (phoneSignal phone acc).2 := by
  unfold phoneSignal
  split_ifs with h
  · simp only
    linarith
  · exact le_refl _

theorem ratingsSignal_score_le (urt : ℕ) (acc : List (String × ℚ) × ℚ) :
    acc.2 ≤ (ratingsSignal urt acc).2 := by
  unfold ratingsSignal
  split_ifs with h
  · have hb : (0 : ℚ) ≤ min 5 ((urt : ℚ) / 1000 * 5) := by
      refine le_min (by norm_num) ?hb2
      positivity
    simp only
    linarith
  · exact le_refl _

theorem typeSignal_score_of_vc {types : List String}
    (h : "veterinary_care" ∈ types) : (typeSignal types).2 = 60 := by
  unfold typeSignal
  rw [if_pos]
  · norm_num
  · simpa using h

theorem round2_nonneg {x : ℚ} (h : 0 ≤ x) : 0 ≤ round2 x := by
  have h1 := @intCast_le_round2 0 x (by exact_mod_cast h)
  exact_mod_cast h1

theorem round2_le_100 {x : ℚ} (h : x ≤ 100) : round2 x ≤ 100 := by
  have h1 := @round2_le_intCast 100 x (by exact_mod_cast h)
  exact_mod_cast h1

theorem le_60_round2_clamp {x : ℚ} (h : 60 ≤ x) : 60 ≤ round2 (clamp0_100 x) := by
  have h1 : (60 : ℚ) ≤ clamp0_100 x := le_clamp0_100 (by norm_num) h
  have h2 := @intCast_le_round2 60 (clamp0_100 x) (by exact_mod_cast h1)
  exact_mod_cast h2

/-- C3: for every input details record, the score returned by
`score_place` lies in [0,100], and re-applying the clamp-to-[0,100]
operation to an already returned score leaves it unchanged. -/
theorem score_place_range_and_clamp_idem (d : Details) :
    0 ≤ (score_place d).score ∧ (score_place d).score ≤ 100 ∧
      clamp0_100 ((score_place d).score) = (score_place d).score := by
  obtain ⟨y, hy⟩ : ∃ y, (score_place d).score = round2 (clamp0_100 y) := ⟨_, rfl⟩
  have h0 : 0 ≤ round2 (clamp0_100 y) := round2_nonneg (clamp0_100_nonneg y)
  have h1 : round2 (clamp0_100 y) ≤ 100 := round2_le_100 (clamp0_100_le_100 y)
  refine ⟨hy ▸ h0, hy ▸ h1, ?_⟩
  rw [hy]
  exact clamp0_100_eq_self h0 h1

theorem score_chain_ge_60 (types : List String) (n a w : String) (phone : Bool) (urt : ℕ)
    (h : (typeSignal types).2 = 60) :
    (60 : ℚ) ≤ (ratingsSignal urt (phoneSignal phone (bookingSignal w
      (KEYWORD_STRONG.foldl (kwStep n a w) (typeSignal types))))).2 := by
  calc (60 : ℚ) = (typeSignal types).2 := h.symm
    _ ≤ (KEYWORD_STRONG.foldl (kwStep n a w) (typeSignal types)).2 :=
        kwFold_score_le n a w KEYWORD_STRONG (typeSignal types)
    _ ≤ (bookingSignal w (KEYWORD_STRONG.foldl (kwStep n a w) (typeSignal types))).2 :=
        bookingSignal_score_le w _
    _ ≤ (phoneSignal phone (bookingSignal w
          (KEYWORD_STRONG.foldl (kwStep n a w) (typeSignal types)))).2 :=
        phoneSignal_score_le phone _
    _ ≤ _ := ratingsSignal_score_le urt _

/-- A details record carrying the Tier-1 tag `veterinarian` (but not
`veterinary_care`) and nothing else. -/
def placeTier1NoVC : Details :=
  { result := some { emptyResult with types := ["veterinarian"] }
    error := none
    raw := none }

unseal Rat.add Rat.mul Rat.sub Rat.inv Rat.ofScientific

/-- C1 counterexample: `veterinarian` is one of the five Tier-1 tags,
yet `score_place` gives this record a score below 60 (in fact 0),
because the +60 type signal fires only on the exact tag
`veterinary_care`. -/
theorem tier1_tag_score_lt_60 :
    ("veterinarian" ∈ TIER1_TYPES ∧ "veterinarian" ∈ (resultOf placeTier1NoVC).types)
      ∧ (score_place placeTier1NoVC).score < 60 := by
  constructor
  · constructor <;> decide
  · decide

/-- C1 (amended): a details record whose category-tag set contains the
tag `veterinary_care` scores at least 60, regardless of all other
attributes. -/
theorem score_ge_60_of_veterinary_care (d : Details)
    (h : "veterinary_care" ∈ (resultOf d).types) :
    60 ≤ (score_place d).score := by
  have hts : (typeSignal (resultOf d).types).2 = 60 := typeSignal_score_of_vc h
  simp only [score_place]
  exact le_60_round2_clamp (score_chain_ge_60 _ _ _ _ _ _ hts)

/-- A details record carrying the tag `veterinary_care`. -/
def placeVC : Details :=
  { result := some { emptyResult with
      name := some "Happy Paws Veterinary Clinic"
      types := ["veterinary_care"]
      website := some "https://happypaws.example" }
    error := none
    raw := none }

/-- Witness for the amended C1 theorem at a concrete record. -/
theorem score_ge_60_of_veterinary_care_witness : 60 ≤ (score_place placeVC).score :=
  score_ge_60_of_veterinary_care placeVC (by decide)

/-- C2: a processed candidate contributes an output record iff its
effective details record has a (truthy) website and its heuristic score
is strictly greater than 20; in particular no-website candidates are
always dropped and a score of exactly 15 is dropped. -/
theorem kept_iff_website_and_score (fetched : Except String Details) (item : Item) :
    (processCandidate fetched item).isSome = true ↔
      (pyTruthyS (resultOf (effectiveDetails fetched item)).website = true
        ∧ 20 < (score_place (effectiveDetails fetched item)).score) := by
  simp only [processCandidate]
  by_cases hw : pyTruthyS (resultOf (effectiveDetails fetched item)).website = true
  · rw [if_pos hw]
    split_ifs with h1 h2 h3 h4 <;> simp_all <;> linarith
  · rw [if_neg hw]
    simp [hw]

/-- C9: a write failure of the secondary CSV output is recovered — exit
status 0, primary JSON written, reported distinctly — while a write
failure of the primary JSON output is fatal (non-zero exit status). -/
theorem csv_failure_recovered_json_failure_fatal (e e' : String) (cw : Except String Unit) :
    (writeOutputs (Except.ok ()) (Except.error e)).exit_code = 0
    ∧ (writeOutputs (Except.ok ()) (Except.error e)).json_written = true
    ∧ (writeOutputs (Except.ok ()) (Except.error e)).report = WriteReport.csvFailed e
    ∧ (writeOutputs (Except.error e') cw).exit_code ≠ 0
    ∧ (writeOutputs (Except.error e') cw).json_written = false
    ∧ (writeOutputs (Except.error e') cw).report = WriteReport.unexpectedError e'
    ∧ WriteReport.csvFailed e ≠ WriteReport.unexpectedError e' := by
  refine ⟨rfl, rfl, rfl, ?_, rfl, rfl, ?_⟩
  · simp [writeOutputs]
  · simp

/-- The observable content of a classification: tier, match basis, and
the matched tags (empty when the key is absent). -/
def classifyProj (c : Classification) : ℕ × String × List String :=
  (c.tier, c.matchBasis, c.matched_types.getD [])

/-- Spec-side model of the tiered classification rules (§4.4 of the
spec), in priority order with first match winning: Tier-1 tag
intersection → tier 1, basis "type"; else Tier-2 intersection plus the
keyword condition → tier 2, basis "type+keyword"; else the same for
Tier-3 → tier 3; else the keyword condition alone → tier 2, basis
"keyword"; else none. -/
def classify_spec_model (details : Details) : Option (ℕ × String × List String) :=
  let res := resultOf details
  let types := res.types
  let name := res.name.getD ""
  let address := res.formatted_address.getD ""
  let website := res.website.getD ""
  let kw := text_has_keyword name || text_has_keyword address || text_has_keyword website
  let inter1 := TIER1_TYPES.filter (fun t => types.contains t)
  let inter2 := TIER2_TYPES.filter (fun t => types.contains t)
  let inter3 := TIER3_TYPES.filter (fun t => types.contains t)
  if !inter1.isEmpty then some (1, "type", inter1)
  else if !inter2.isEmpty && kw then some (2, "type+keyword", inter2)
  else if !inter3.isEmpty && kw then some (3, "type+keyword", inter3)
  else if kw then some (2, "keyword", [])
  else none

/-- C5: `classify_place` evaluates its rules in priority order with
first match winning, exactly as the spec-side model states. -/
theorem classify_place_matches_spec (d : Details) :
    (classify_place d).map classifyProj = classify_spec_model d := by
  simp only [classify_place, classify_spec_model]
  split_ifs <;> simp [classifyProj]

/-! ### Aggregation lemmas: `nearby_search` is first-seen dedup -/

theorem firstSeenDedup_nil : firstSeenDedup [] = [] := by
  rw [firstSeenDedup]

theorem firstSeenDedup_cons (x : Item) (xs : List Item) :
    firstSeenDedup (x :: xs) =
      x :: firstSeenDedup (xs.filter (fun y => y.place_id ≠ x.place_id)) := by
  rw [firstSeenDedup]

theorem mem_firstSeenDedup : ∀ (l : List Item), ∀ x ∈ firstSeenDedup l, x ∈ l
  | [] => by simp [firstSeenDedup_nil]
  | y :: ys => by
    intro x hx
    rw [firstSeenDedup_cons] at hx
    rcases List.mem_cons.mp hx with h | h
    · exact h ▸ List.mem_cons_self _ _
    · have hm := mem_firstSeenDedup (ys.filter (fun z => z.place_id ≠ y.place_id)) x h
      exact List.mem_cons_of_mem _ (List.mem_of_mem_filter hm)
termination_by l => l.length
decreasing_by
  simp only [List.length_cons]
  exact Nat.lt_succ_of_le (List.length_filter_le _ _)

theorem firstSeenDedup_pid_nodup : ∀ (l : List Item),
    ((firstSeenDedup l).map Item.place_id).Nodup
  | [] => by simp [firstSeenDedup_nil]
  | y :: ys => by
    rw [firstSeenDedup_cons]
    simp only [List.map_cons, List.nodup_cons]
    refine ⟨?_, firstSeenDedup_pid_nodup (ys.filter (fun z => z.place_id ≠ y.place_id))⟩
    intro hmem
    rcases List.mem_map.mp hmem with ⟨z, hz, hpid⟩
    have hz2 := mem_firstSeenDedup _ z hz
    have hz3 := List.of_mem_filter hz2
    simp only [decide_eq_true_eq] at hz3
    exact hz3 hpid
termination_by l => l.length
decreasing_by
  simp only [List.length_cons]
  exact Nat.lt_succ_of_le (List.length_filter_le _ _)

/-- The place id of an item, defaulting to the empty string. -/
def pidD (it : Item) : String :=
  it.place_id.getD ""

theorem any_keys_iff (m : List (String × Item)) (pid : String) :
    (m.any (fun e => e.1 = pid) = true) ↔ pid ∈ m.map Prod.fst := by
  simp only [List.any_eq_true, List.mem_map, decide_eq_true_eq]

theorem restAgg_congr : ∀ (l : List Item) (s1 s2 : List String),
    (∀ x : String, x ∈ s1 ↔ x ∈ s2) → restAgg l s1 = restAgg l s2 := by
  intro l
  induction l with
  | nil => intro s1 s2 _; rfl
  | cons it l ih =>
    intro s1 s2 hs
    cases hpid : it.place_id with
    | none =>
      simp only [restAgg, hpid]
      exact ih s1 s2 hs
    | some pid =>
      simp only [restAgg, hpid]
      by_cases he : pid = ""
      · simp only [he, if_pos rfl]
        exact ih s1 s2 hs
      · rw [if_neg he, if_neg he]
        by_cases hmem : pid ∈ s1
        · rw [if_pos hmem, if_pos ((hs pid).mp hmem)]
          exact ih s1 s2 hs
        · rw [if_neg hmem, if_neg (fun hc => hmem ((hs pid).mpr hc))]
          have hs2 : ∀ x : String, x ∈ pid :: s1 ↔ x ∈ pid :: s2 := by
            intro x
            simp only [List.mem_cons]
            exact or_congr Iff.rfl (hs x)
          rw [ih (pid :: s1) (pid :: s2) hs2]

theorem foldl_insertItem_eq : ∀ (l : List Item) (m : List (String × Item)),
    l.foldl insertItem m = m ++ restAgg l (m.map Prod.fst) := by
  intro l
  induction l with
  | nil => intro m; simp [restAgg]
  | cons it l ih =>
    intro m
    rw [List.foldl_cons]
    cases hpid : it.place_id with
    | none =>
      have hins : insertItem m it = m := by simp [insertItem, hpid]
      simp only [restAgg, hpid]
      rw [hins, ih m]
    | some pid =>
      simp only [restAgg, hpid]
      by_cases he : pid = ""
      · have hins : insertItem m it = m := by simp [insertItem, hpid, he]
        rw [hins, ih m]
        simp [he]
      · rw [if_neg he]
        by_cases hmem : pid ∈ m.map Prod.fst
        · have hins : insertItem m it = m := by
            have hany : m.any (fun e => e.1 = pid) = true := (any_keys_iff m pid).mpr hmem
            simp [insertItem, hpid, he, hany]
          rw [hins, ih m, if_pos hmem]
        · have hins : insertItem m it = m ++ [(pid, it)] := by
            have hany : ¬ (m.any (fun e => e.1 = pid) = true) := fun hc =>
              hmem ((any_keys_iff m pid).mp hc)
            simp [insertItem, hpid, he, hany]
          rw [hins, ih (m ++ [(pid, it)]), if_neg hmem]
          rw [List.append_assoc]
          congr 1
          simp only [List.map_append, List.map_cons, List.map_nil]
          rw [List.singleton_append]
          have hiff : ∀ x : String, x ∈ m.map Prod.fst ++ [pid] ↔ x ∈ pid :: m.map Prod.fst := by
            intro x
            simp only [List.mem_append, List.mem_singleton, List.mem_cons]
            tauto
          rw [restAgg_congr l _ _ hiff]

theorem restAgg_map_snd : ∀ (l : List Item) (seen : List String),
    (restAgg l seen).map Prod.snd =
      firstSeenDedup (l.filter (fun it => validItem it && !(decide (pidD it ∈ seen)))) := by
  intro l
  induction l with
  | nil => intro seen; simp [restAgg, firstSeenDedup_nil]
  | cons it l ih =>
    intro seen
    cases hpid : it.place_id with
    | none =>
      have hv : validItem it = false := by simp [validItem, pyTruthyS, hpid]
      simp only [restAgg, hpid, List.filter_cons, hv, Bool.false_and, if_neg (by simp : ¬ (false = true))]
      exact ih seen
    | some pid =>
      by_cases he : pid = ""
      · have hv : validItem it = false := by simp [validItem, pyTruthyS, hpid, he]
        simp only [restAgg, hpid, if_pos he, List.filter_cons, hv, Bool.false_and,
          if_neg (by simp : ¬ (false = true))]
        exact ih seen
      · have hv : validItem it = true := by simp [validItem, pyTruthyS, hpid, he]
        have hpd : pidD it = pid := by simp [pidD, hpid]
        by_cases hmem : pid ∈ seen
        · have hpred : (validItem it && !(decide (pidD it ∈ seen))) = false := by
            simp [hv, hpd, hmem]
          simp only [restAgg, hpid, if_neg he, if_pos hmem, List.filter_cons, hpred,
            if_neg (by simp : ¬ (false = true))]
          exact ih seen
        · have hpred : (validItem it && !(decide (pidD it ∈ seen))) = true := by
            simp [hv, hpd, hmem]
          simp only [restAgg, hpid, if_neg he, if_neg hmem, List.filter_cons, hpred, if_true,
            eq_self_iff_true]
          rw [firstSeenDedup_cons, List.map_cons, ih (pid :: seen)]
          congr 1
          rw [List.filter_filter]
          congr 1
          apply List.filter_congr
          intro y _
          cases hy : y.place_id with
          | none =>
            have hvy : validItem y = false := by simp [validItem, pyTruthyS, hy]
            simp [hvy]
          | some q =>
            have hpdy : pidD y = q := by simp [pidD, hy]
            simp only [hpdy, hy, hpid, List.mem_cons, decide_not]
            by_cases h1 : q = pid
            · simp [h1]
            · by_cases h2 : q ∈ seen
              · simp [h1, h2]
              · simp [h1, h2]

theorem foldl_processPage_flatten : ∀ (pages : List (List Item)) (m : List (String × Item)),
    pages.foldl processPage m = (pages.flatten).foldl insertItem m := by
  intro pages
  induction pages with
  | nil => intro m; rfl
  | cons p ps ih =>
    intro m
    rw [List.foldl_cons, List.flatten_cons, List.foldl_append]
    exact ih (processPage m p)

theorem runQuery_ok (fetch : ℕ → Except String Page) (m m' : List (String × Item))
    (h : runQuery fetch m = Except.ok m') :
    m' = (visitedPagesQ fetch).foldl processPage m := by
  simp only [runQuery, visitedPagesQ] at h ⊢
  cases h1 : fetch 1 with
  | error e => rw [h1] at h; simp at h
  | ok p1 =>
    rw [h1] at h
    dsimp only at h ⊢
    by_cases t1 : pyTruthyS p1.next_page_token = true
    · rw [if_pos t1] at h ⊢
      cases h2 : fetch 2 with
      | error e => rw [h2] at h; simp at h
      | ok p2 =>
        rw [h2] at h
        dsimp only at h ⊢
        by_cases t2 : pyTruthyS p2.next_page_token = true
        · rw [if_pos t2] at h ⊢
          cases h3 : fetch 3 with
          | error e => rw [h3] at h; simp at h
          | ok p3 =>
            rw [h3] at h
            dsimp only at h ⊢
            simp only [Except.ok.injEq] at h
            rw [← h]
            rfl
        · rw [if_neg t2] at h ⊢
          simp only [Except.ok.injEq] at h
          rw [← h]
          rfl
    · rw [if_neg t1] at h ⊢
      simp only [Except.ok.injEq] at h
      rw [← h]
      rfl

theorem runQueries_ok : ∀ (fs : List (ℕ → Except String Page)) (m m' : List (String × Item)),
    runQueries fs m = Except.ok m' →
    m' = ((fs.map (fun f => (visitedPagesQ f).flatten)).flatten).foldl insertItem m := by
  intro fs
  induction fs with
  | nil =>
    intro m m' h
    simp only [runQueries, Except.ok.injEq] at h
    rw [← h]
    rfl
  | cons f fs ih =>
    intro m m' h
    simp only [runQueries] at h
    cases h1 : runQuery f m with
    | error e => rw [h1] at h; simp at h
    | ok m1 =>
      rw [h1] at h
      have hm1 := runQuery_ok f m m1 h1
      rw [ih m1 m' h, hm1]
      rw [List.map_cons, List.flatten_cons, List.foldl_append]
      rw [foldl_processPage_flatten]

theorem nearby_search_ok_eq (fetches : List (ℕ → Except String Page)) (out : List Item)
    (h : nearby_search fetches = Except.ok out) :
    out = firstSeenDedup ((visitedItems fetches).filter validItem) := by
  unfold nearby_search at h
  cases h1 : runQueries fetches [] with
  | error e => rw [h1] at h; simp at h
  | ok m =>
    rw [h1] at h
    simp only [Except.ok.injEq] at h
    rw [← h]
    have hm := runQueries_ok fetches [] m h1
    rw [hm, foldl_insertItem_eq]
    simp only [List.map_nil, List.nil_append]
    rw [restAgg_map_snd]
    simp only [visitedItems]
    congr 1
    apply List.filter_congr
    intro y _
    simp

/-- C4: whatever pages the queries return, the aggregated candidate list
produced by `nearby_search` is exactly the first-seen deduplication of
the visited item stream in query-then-page order (one record per unique
`place_id`, the first one encountered, output in first-seen order), and
its `place_id`s are pairwise distinct. -/
theorem nearby_search_first_seen (fetches : List (ℕ → Except String Page)) (out : List Item)
    (h : nearby_search fetches = Except.ok out) :
    out = firstSeenDedup ((visitedItems fetches).filter validItem)
      ∧ (out.map Item.place_id).Nodup := by
  have he := nearby_search_ok_eq fetches out h
  refine ⟨he, ?_⟩
  rw [he]
  exact firstSeenDedup_pid_nodup _

def itemA : Item := { place_id := some "a1", name := some "A Clinic", vicinity := none }

def itemA2 : Item := { place_id := some "a1", name := some "A Clinic duplicate", vicinity := none }

def itemB : Item := { place_id := some "b1", name := some "B Clinic", vicinity := none }

def itemNoId : Item := { place_id := none, name := some "anonymous", vicinity := none }

def itemEmptyId : Item := { place_id := some "", name := some "empty id", vicinity := none }

/-- A two-page query: page 1 returns `itemA` and an id-less item with a
continuation token, page 2 returns a duplicate of `itemA` and `itemB`. -/
def fetchQ1 : ℕ → Except String Page := fun n =>
  if n = 1 then Except.ok { results := [itemA, itemNoId], next_page_token := some "tok" }
  else Except.ok { results := [itemA2, itemB], next_page_token := none }

/-- A one-page query returning an empty-id item and duplicates of both
previously seen records. -/
def fetchQ2 : ℕ → Except String Page := fun _ =>
  Except.ok { results := [itemEmptyId, itemA2, itemB], next_page_token := none }

/-- Witness for C4 at a concrete two-query run with cross-page and
cross-query duplicates. -/
theorem nearby_search_first_seen_witness :
    ([itemA, itemB] = firstSeenDedup ((visitedItems [fetchQ1, fetchQ2]).filter validItem))
      ∧ (([itemA, itemB].map Item.place_id).Nodup) :=
  nearby_search_first_seen [fetchQ1, fetchQ2] [itemA, itemB] rfl

/-- C10: every record in the aggregated list returned by
`nearby_search` has a truthy `place_id`; raw results with a missing or
empty id are silently skipped. -/
theorem nearby_search_pid_truthy (fetches : List (ℕ → Except String Page)) (out : List Item)
    (x : Item) (h : nearby_search fetches = Except.ok out) (hx : x ∈ out) :
    validItem x = true := by
  have he := nearby_search_ok_eq fetches out h
  rw [he] at hx
  exact List.of_mem_filter (mem_firstSeenDedup _ x hx)

/-- Witness for C10: the concrete run above kept `itemA`, whose id is
truthy (while the id-less and empty-id inputs were dropped). -/
theorem nearby_search_pid_truthy_witness : validItem itemA = true :=
  nearby_search_pid_truthy [fetchQ1, fetchQ2] [itemA, itemB] itemA rfl (by decide)

/-- A query whose first page request raises an HTTP error. -/
def fetchErr : ℕ → Except String Page := fun _ => Except.error "HTTPError 500"

/-- C6 counterexample: an HTTP error on the first query's page aborts
`nearby_search` entirely — the second query's results (which the same
query oracle would deliver on its own, second conjunct) are lost, so a
failure on one query is not isolated. -/
theorem query_failure_aborts_all_queries :
    nearby_search [fetchErr, fetchQ2] = Except.error "HTTPError 500"
      ∧ nearby_search [fetchQ2] = Except.ok [itemA2, itemB] := by
  constructor
  · rfl
  · rfl

theorem runQueries_append : ∀ (fs1 fs2 : List (ℕ → Except String Page))
    (m : List (String × Item)),
    runQueries (fs1 ++ fs2) m =
      match runQueries fs1 m with
      | Except.error e => Except.error e
      | Except.ok m1 => runQueries fs2 m1 := by
  intro fs1
  induction fs1 with
  | nil => intro fs2 m; rfl
  | cons f fs ih =>
    intro fs2 m
    simp only [List.cons_append, runQueries]
    cases h1 : runQuery f m with
    | error e => rfl
    | ok m1 => exact ih fs2 m1

/-- C6 (amended): a transport-level failure on a reached query's page
request is not isolated: once the earlier queries have run, an HTTP
error raised during any query's pagination propagates out of
`nearby_search` as the error of the whole call, so the remaining
queries are aborted and no results from any query are returned. -/
theorem query_failure_propagates (fs1 : List (ℕ → Except String Page))
    (f : ℕ → Except String Page) (fs2 : List (ℕ → Except String Page)) (e : String)
    (m : List (String × Item)) (h1 : runQueries fs1 [] = Except.ok m)
    (h2 : runQuery f m = Except.error e) :
    nearby_search (fs1 ++ f :: fs2) = Except.error e := by
  unfold nearby_search
  rw [runQueries_append fs1 (f :: fs2) []]
  rw [h1]
  dsimp only
  simp only [runQueries]
  rw [h2]

/-- Witness for the amended C6 theorem. -/
theorem query_failure_propagates_witness :
    nearby_search ([fetchQ2] ++ fetchErr :: [fetchQ2]) = Except.error "HTTPError 500" :=
  query_failure_propagates [fetchQ2] fetchErr [fetchQ2] "HTTPError 500"
    [("a1", itemA2), ("b1", itemB)] rfl rfl

/-- C7: when a candidate's detail fetch fails, the loop substitutes the
degraded placeholder (which has no `result`, hence no website), the
candidate is excluded from the output, and the rest of the batch is
processed exactly as if the failing candidate were not there — the
failure is never fatal to the run. -/
theorem detail_fetch_failure_isolated (fetch : Item → Except String Details)
    (raws1 raws2 : List Item) (bad : Item) (e : String) (h : fetch bad = Except.error e) :
    effectiveDetails (Except.error e) bad = placeholderDetails e bad
    ∧ pyTruthyS (resultOf (placeholderDetails e bad)).website = false
    ∧ processCandidate (Except.error e) bad = none
    ∧ processAll fetch (raws1 ++ bad :: raws2) = processAll fetch raws1 ++ processAll fetch raws2 := by
  have h3 : processCandidate (Except.error e) bad = none := rfl
  refine ⟨rfl, rfl, h3, ?_⟩
  simp only [processAll, List.filterMap_append, List.filterMap_cons, h, h3]

/-- A details oracle that fails on `itemA` and enriches everything else
into a scoring record. -/
def fetchMixed : Item → Except String Details := fun it =>
  if it.place_id = some "a1" then Except.error "details boom" else Except.ok placeVC

/-- Witness for C7: `itemA`'s fetch fails between two good candidates,
which are still processed. -/
theorem detail_fetch_failure_isolated_witness :
    effectiveDetails (Except.error "details boom") itemA = placeholderDetails "details boom" itemA
    ∧ pyTruthyS (resultOf (placeholderDetails "details boom" itemA)).website = false
    ∧ processCandidate (Except.error "details boom") itemA = none
    ∧ processAll fetchMixed ([itemB] ++ itemA :: [itemB]) =
        processAll fetchMixed [itemB] ++ processAll fetchMixed [itemB] :=
  detail_fetch_failure_isolated fetchMixed [itemB] [itemB] itemA "details boom" rfl

/-- A details record whose `result` is present but carries no geometry. -/
def dNoGeom : Details :=
  { result := some emptyResult, error := none, raw := none }

/-- C8 counterexample: with geometry absent, the flat record's
`latitude` field is Python `None` (JSON null), not the empty string. -/
theorem missing_latitude_renders_null :
    (("latitude", PyVal.null) ∈ simplifiedRecord dNoGeom)
      ∧ PyVal.null ≠ PyVal.s "" := by
  constructor
  · decide
  · decide

/-- Every address component carries both of its name keys (the shape
the external API sends). -/
def wellFormedComponents (d : Details) : Prop :=
  ∀ ac ∈ (resultOf d).address_components,
    ac.long_name.isSome = true ∧ ac.short_name.isSome = true

theorem extract_component_isSome (ac_list : List AddressComponent) (ac_type : String)
    (short : Bool)
    (h : ∀ ac ∈ ac_list, ac.long_name.isSome = true ∧ ac.short_name.isSome = true) :
    (extract_component ac_list ac_type short).isSome = true := by
  unfold extract_component
  by_cases he : ac_list.isEmpty
  · rw [if_pos he]
    rfl
  · rw [if_neg he]
    cases hf : ac_list.find? (fun ac => ac.types.contains ac_type) with
    | none => rfl
    | some ac =>
      dsimp only
      rcases h ac (List.mem_of_find?_eq_some hf) with ⟨h1, h2⟩
      cases short
      · simpa using h1
      · simpa using h2

theorem pyOrOpt_isSome {a b : Option String} (ha : a.isSome = true) (hb : b.isSome = true) :
    (pyOrOpt a b).isSome = true := by
  unfold pyOrOpt
  split_ifs <;> assumption

theorem optSToVal_ne_null {o : Option String} (h : o.isSome = true) :
    optSToVal o ≠ PyVal.null := by
  cases o with
  | none => simp at h
  | some s => simp [optSToVal]

/-- C8 (amended): in the projected flat record, every field other than
`latitude` and `longitude` renders a missing value as the empty string,
never as null (given that address components carry their name keys, as
the external API guarantees); `latitude` and `longitude` render as null
when the geometry is absent. -/
theorem flat_record_null_only_lat_lng (d : Details) (h : wellFormedComponents d) :
    (∀ k v, (k, v) ∈ simplifiedRecord d → k ≠ "latitude" → k ≠ "longitude" → v ≠ PyVal.null)
    ∧ ((resultOf d).geometry = none →
        ("latitude", PyVal.null) ∈ simplifiedRecord d
          ∧ ("longitude", PyVal.null) ∈ simplifiedRecord d) := by
  constructor
  · have hall : ∀ e ∈ simplifiedRecord d,
        e.1 ≠ "latitude" → e.1 ≠ "longitude" → e.2 ≠ PyVal.null := by
      simp only [simplifiedRecord, List.forall_mem_cons, List.not_mem_nil,
        false_implies, implies_true, and_true]
      repeat' apply And.intro
      all_goals intro hk1 hk2
      all_goals try exact absurd rfl hk1
      all_goals try exact absurd rfl hk2
      all_goals try simp
      · exact optSToVal_ne_null (extract_component_isSome _ _ _ h)
      · exact optSToVal_ne_null (pyOrOpt_isSome (extract_component_isSome _ _ _ h)
          (pyOrOpt_isSome (extract_component_isSome _ _ _ h)
            (extract_component_isSome _ _ _ h)))
      · exact optSToVal_ne_null (extract_component_isSome _ _ _ h)
      · exact optSToVal_ne_null (extract_component_isSome _ _ _ h)
    intro k v hmem hk1 hk2
    exact hall (k, v) hmem hk1 hk2
  · intro hg
    constructor
    · simp [simplifiedRecord, hg, optQToVal]
    · simp [simplifiedRecord, hg, optQToVal]

/-- A well-formed details record with address components but no
geometry. -/
def dWF : Details :=
  { result := some { emptyResult with
      address_components :=
        [{ long_name := some "12345", short_name := some "12345", types := ["postal_code"] }] }
    error := none
    raw := none }

/-- Witness for the amended C8 theorem at a concrete record. -/
theorem flat_record_null_only_lat_lng_witness :
    (∀ k v, (k, v) ∈ simplifiedRecord dWF → k ≠ "latitude" → k ≠ "longitude" → v ≠ PyVal.null)
    ∧ ((resultOf dWF).geometry = none →
        ("latitude", PyVal.null) ∈ simplifiedRecord dWF
          ∧ ("longitude", PyVal.null) ∈ simplifiedRecord dWF) :=
  flat_record_null_only_lat_lng dWF (by unfold wellFormedComponents; decide)
